import Mathlib

/-!
Verification of the booking/payment core of an Airbnb-style marketplace
backend. The definitions below are a shallow embedding of
src/booking/booking.service.ts (the Stripe + PayPal variant of the
booking service): JavaScript Date timestamps become integers (milliseconds
since the Unix epoch), Prisma Decimal values become exact scaled integers,
the Prisma-backed database becomes an explicit record of lists, and each
Prisma transaction becomes a function from states to states that either
commits all of its writes or none of them (an exception thrown inside the
transaction callback aborts the transaction, so the pre-state is kept).
External I/O (the Stripe/PayPal SDK network calls, signature verification,
environment lookups, logging) is not modelled: the webhook handlers below
take an already-verified, already-parsed event, and the reserve operations
take the gateway call outcome as a parameter.
-/

namespace Airbnb

/-- Milliseconds per day, the MS_PER_DAY constant of the source. -/
def MS_PER_DAY : Int := 24 * 60 * 60 * 1000

/-- Exact decimal number: the value num / 10 ^ scale. This embeds
Prisma.Decimal (decimal.js), which stores exact decimal values. -/
structure Decimal where
  num : Int
  scale : Nat
deriving DecidableEq, Repr

/-- Value equality of two decimals, embedding Prisma.Decimal.equals. -/
def Decimal.equals (a b : Decimal) : Bool :=
  a.num * (10 : Int) ^ b.scale == b.num * (10 : Int) ^ a.scale

/-- Round the fraction n / d (with d positive) to the nearest integer,
ties away from zero. This is ROUND_HALF_UP, the default rounding mode
decimal.js applies inside toFixed. -/
def roundHalfAwayDiv (n d : Int) : Int :=
  if 0 ≤ n then (2 * n + d).fdiv (2 * d)
  else -((2 * (-n) + d).fdiv (2 * d))

/-- Embeds decimalToCents of the source. The source computes
price.toFixed(2) (decimal.js rounds the exact decimal to two fractional
digits, half away from zero), deletes the decimal point from the resulting
string and reads the digits back with Number. Deleting the point from a
fixed two-decimal string yields exactly the integer number of cents, so the
whole pipeline is the half-away rounding of price * 100; the final
Number.isInteger guard of the source can never fire, because the string
read back is always an integer numeral. -/
def decimalToCents (price : Decimal) : Int :=
  roundHalfAwayDiv (price.num * 100) ((10 : Int) ^ price.scale)

/-- Truncation of a timestamp to midnight UTC of its calendar day:
the source pattern Date.UTC(d.getUTCFullYear(), d.getUTCMonth(),
d.getUTCDate()), which floors the timestamp to the enclosing day
boundary. -/
def utcMidnight (t : Int) : Int :=
  MS_PER_DAY * (t.fdiv MS_PER_DAY)

/-- Calendar day number of a timestamp (days since the epoch). -/
def utcDay (t : Int) : Int :=
  t.fdiv MS_PER_DAY

/-- Errors thrown by the booking service, tagged with the HTTP exception
class and message used at the throw site. -/
inductive BookingError where
  | unauthorized (msg : String)
  | notFound (msg : String)
  | badRequest (msg : String)
  | internalServer (msg : String)
deriving DecidableEq, Repr

/-- Result of parseAndValidateBookingDates: start and end timestamps
normalized to midnight UTC, and the night count. -/
structure ValidatedRange where
  startUtc : Int
  endUtc : Int
  nights : Int
deriving DecidableEq, Repr

/-- Embeds parseAndValidateBookingDates. The two arguments stand for the
results of new Date(startISO) and new Date(endISO): none models an
unparseable string (NaN timestamp), some t a parseable one with timestamp
t. nowMs is the current clock reading used for the past-date check. The
division computing diffDays is exact in the source (both operands are
midnight-aligned), so Math.floor leaves it unchanged; fdiv is that exact
quotient. -/
def parseAndValidateBookingDates (startParsed endParsed : Option Int)
    (nowMs : Int) : Except BookingError ValidatedRange :=
  match startParsed, endParsed with
  | some s, some e =>
    let startUtc := utcMidnight s
    let endUtc := utcMidnight e
    let diffDays := (endUtc - startUtc).fdiv MS_PER_DAY
    if diffDays ≤ 0 then
      .error (.badRequest "endDate must be after startDate")
    else
      let nights := diffDays
      if nights < 1 then .error (.badRequest "At least 1 night is required")
      else
        let todayUtc := utcMidnight nowMs
        if startUtc < todayUtc then
          .error (.badRequest "startDate cannot be in the past")
        else .ok ⟨startUtc, endUtc, nights⟩
  | _, _ => .error (.badRequest "Invalid dates")

/-- Embeds expandDatesUtcMidnight: the list of nights consecutive
midnight-UTC timestamps starting at startUtc. The JS loop runs for
0 ≤ i < nights, so a non-positive nights yields the empty list. -/
def expandDatesUtcMidnight (startUtc : Int) (nights : Int) : List Int :=
  (List.range nights.toNat).map (fun (i : Nat) => startUtc + (i : Int) * MS_PER_DAY)

/-- Booking.status values of the Prisma schema. -/
inductive BookingStatus where
  | PENDING
  | CONFIRMED
  | CANCELLED
deriving DecidableEq, Repr

/-- Payment.status values of the Prisma schema. -/
inductive PaymentStatus where
  | PENDING
  | SUCCEEDED
  | FAILED
deriving DecidableEq, Repr

/-- Payment.paymentMethod values of the Prisma schema. -/
inductive PaymentMethod where
  | STRIPE
  | PAYPAL
deriving DecidableEq, Repr

/-- A listing row, reduced to the fields the booking service reads:
its id and its nightly price (a Prisma Decimal column). The title and
description only flow into the gateway line item, which is external. -/
structure Listing where
  id : Nat
  price : Decimal
deriving DecidableEq, Repr

/-- A booking row. Dates are stored as timestamps; the service always
writes midnight-UTC values. Identifiers are opaque; Nat stands for the
UUID strings of the schema. -/
structure Booking where
  id : Nat
  userId : Nat
  listingId : Nat
  startDate : Int
  endDate : Int
  status : BookingStatus
  totalPrice : Decimal
deriving DecidableEq, Repr

/-- A payment row, reduced to the fields the booking service reads or
writes. The free-form metadata JSON column is forensic only (never read
back by any decision in the service) and is not modelled. -/
structure Payment where
  id : Nat
  bookingId : Nat
  amount : Decimal
  currency : String
  status : PaymentStatus
  paymentMethod : PaymentMethod
  stripePaymentId : Option String
  paypalOrderId : Option String
  paypalCaptureId : Option String
deriving DecidableEq, Repr

/-- A calendar occupancy row, keyed by (listingId, date). -/
structure CalendarItem where
  listingId : Nat
  date : Int
  isBooked : Bool
deriving DecidableEq, Repr

/-- The persistent store the booking service touches: users (only their
existence is read), listings, bookings, payments and calendar rows.
nextId is the id supply for newly created rows. -/
structure DBState where
  users : List Nat
  listings : List Listing
  bookings : List Booking
  payments : List Payment
  calendar : List CalendarItem
  nextId : Nat
deriving DecidableEq, Repr

/-- Embeds prisma.user.findUnique on the id. -/
def findUserById (st : DBState) (userId : Nat) : Option Nat :=
  st.users.find? (fun u => u == userId)

/-- Embeds prisma.listing.findUnique on the id. -/
def findListingById (st : DBState) (listingId : Nat) : Option Listing :=
  st.listings.find? (fun l => l.id == listingId)

/-- Embeds prisma.booking.findUnique on the id. -/
def findBookingById (st : DBState) (bookingId : Nat) : Option Booking :=
  st.bookings.find? (fun b => b.id == bookingId)

/-- Embeds prisma.payment.findFirst with where stripePaymentId. -/
def findPaymentByStripeId (st : DBState) (sessionId : String) : Option Payment :=
  st.payments.find? (fun p => p.stripePaymentId == some sessionId)

/-- Embeds prisma.payment.findFirst with where paymentMethod PAYPAL and
paypalOrderId. -/
def findPaymentByPaypalOrder (st : DBState) (orderId : String) : Option Payment :=
  st.payments.find? (fun p =>
    p.paymentMethod == PaymentMethod.PAYPAL && p.paypalOrderId == some orderId)

/-- Embeds prisma.calendarItem.findUnique on the composite key
(listingId, date). -/
def findCalendarItem (cal : List CalendarItem) (listingId : Nat) (d : Int) :
    Option CalendarItem :=
  cal.find? (fun c => c.listingId == listingId && c.date == d)

/-- The truthiness test existing?.isBooked of the conflict-check loop. -/
def isBookedAt (cal : List CalendarItem) (listingId : Nat) (d : Int) : Bool :=
  match findCalendarItem cal listingId d with
  | some c => c.isBooked
  | none => false

/-- Embeds prisma.calendarItem.upsert with isBooked true for the key
(listingId, d): update the existing row if one exists, else create it. -/
def upsertCalendarBooked (cal : List CalendarItem) (listingId : Nat) (d : Int) :
    List CalendarItem :=
  if (findCalendarItem cal listingId d).isSome then
    cal.map (fun c =>
      if c.listingId == listingId && c.date == d then { c with isBooked := true }
      else c)
  else cal ++ [{ listingId := listingId, date := d, isBooked := true }]

/-- The upsert loop over the list of nights to book. -/
def upsertCalendarAll (cal : List CalendarItem) (listingId : Nat)
    (dates : List Int) : List CalendarItem :=
  dates.foldl (fun acc d => upsertCalendarBooked acc listingId d) cal

/-- Embeds prisma.booking.update setting status CONFIRMED on one id. -/
def setBookingConfirmed (bs : List Booking) (bookingId : Nat) : List Booking :=
  bs.map (fun b =>
    if b.id == bookingId then { b with status := BookingStatus.CONFIRMED } else b)

/-- Embeds prisma.payment.update of the Stripe webhook: status SUCCEEDED
(the metadata merge is not modelled). -/
def setPaymentSucceeded (ps : List Payment) (paymentId : Nat) : List Payment :=
  ps.map (fun p =>
    if p.id == paymentId then { p with status := PaymentStatus.SUCCEEDED } else p)

/-- Embeds prisma.payment.update of the PayPal webhook: status SUCCEEDED
and the capture id recorded. -/
def setPaymentSucceededPaypal (ps : List Payment) (paymentId : Nat)
    (captureId : Option String) : List Payment :=
  ps.map (fun p =>
    if p.id == paymentId then
      { p with status := PaymentStatus.SUCCEEDED, paypalCaptureId := captureId }
    else p)

/-- Uppercasing as used by toUpperCase on the currency codes involved
(ASCII letters only), written over the character list so that it
evaluates by kernel reduction. -/
def asciiUpper (s : String) : String :=
  String.mk (s.data.map Char.toUpper)

/-- Outcome of a webhook handler call: received is the 2xx body returned
to the provider; badRequest is a BadRequestException escaping the handler
(the provider sees a 400 and will redeliver). -/
inductive WebhookResult where
  | received
  | badRequest (msg : String)
deriving DecidableEq, Repr

/-- A Stripe event that already passed constructEvent signature
verification. amountTotal and currency carry what the provider reported
for the session; the source handler never reads them (there is no
amount/currency consistency check on the Stripe path). -/
structure StripeEvent where
  type : String
  sessionId : String
  paymentIntentId : Option String
  amountTotal : Option Int
  currency : Option String
deriving DecidableEq, Repr

/-- A PayPal event that already passed the verify-webhook-signature call.
Fields mirror what handlePaypalWebhook extracts from the JSON payload. -/
structure PaypalEvent where
  eventType : String
  eventId : String
  captureId : Option String
  relatedOrderId : Option String
  amountValue : Option Decimal
  currencyCode : Option String
deriving DecidableEq, Repr

/-- Embeds handleStripeWebhook after signature verification. The body of
the prisma transaction only writes after every check has passed, and a
thrown BadRequestException aborts the transaction, so the failing branch
returns the unchanged state. -/
def handleStripeWebhook (st : DBState) (ev : StripeEvent) :
    WebhookResult × DBState :=
  if ev.type ≠ "checkout.session.completed" then (.received, st)
  else
    match findPaymentByStripeId st ev.sessionId with
    | none => (.received, st)
    | some payment =>
      match findBookingById st payment.bookingId with
      | none => (.received, st)
      | some booking =>
        if payment.status = PaymentStatus.SUCCEEDED then (.received, st)
        else
          let startUtc := utcMidnight booking.startDate
          let endUtc := utcMidnight booking.endDate
          let nights := (endUtc - startUtc).fdiv MS_PER_DAY
          let datesToBook := expandDatesUtcMidnight startUtc nights
          if datesToBook.any (fun d => isBookedAt st.calendar booking.listingId d) then
            (.badRequest "Some dates are already booked", st)
          else
            (.received,
              { st with
                calendar := upsertCalendarAll st.calendar booking.listingId datesToBook
                bookings := setBookingConfirmed st.bookings booking.id
                payments := setPaymentSucceeded st.payments payment.id })

/-- Embeds handlePaypalWebhook after JSON parsing, header checks and the
verify-webhook-signature call. As in the Stripe handler, every throw
inside the transaction happens before any write, so failing branches
return the unchanged state. -/
def handlePaypalWebhook (st : DBState) (ev : PaypalEvent) :
    WebhookResult × DBState :=
  if ev.eventType ≠ "PAYMENT.CAPTURE.COMPLETED" then (.received, st)
  else
    match ev.relatedOrderId with
    | none => (.received, st)
    | some orderId =>
      match findPaymentByPaypalOrder st orderId with
      | none => (.received, st)
      | some payment =>
        match findBookingById st payment.bookingId with
        | none => (.received, st)
        | some booking =>
          if payment.status = PaymentStatus.SUCCEEDED then (.received, st)
          else
            let amountMismatch :=
              match ev.amountValue with
              | some paid => !(Decimal.equals paid payment.amount)
              | none => false
            if amountMismatch then (.badRequest "Paid amount mismatch", st)
            else
              let currencyMismatch :=
                match ev.currencyCode with
                | some code =>
                  let dbCur := asciiUpper payment.currency
                  decide (dbCur ≠ "") && decide (dbCur ≠ asciiUpper code)
                | none => false
              if currencyMismatch then (.badRequest "Currency mismatch", st)
              else
                let startUtc := utcMidnight booking.startDate
                let endUtc := utcMidnight booking.endDate
                let nights := (endUtc - startUtc).fdiv MS_PER_DAY
                let datesToBook := expandDatesUtcMidnight startUtc nights
                if datesToBook.any (fun d => isBookedAt st.calendar booking.listingId d) then
                  (.badRequest "Some dates are already booked", st)
                else
                  (.received,
                    { st with
                      calendar := upsertCalendarAll st.calendar booking.listingId datesToBook
                      bookings := setBookingConfirmed st.bookings booking.id
                      payments :=
                        setPaymentSucceededPaypal st.payments payment.id ev.captureId })

/-- Outcome of the external gateway call made during reserve: ok carries
the provider transaction id (Stripe checkout-session id, or PayPal order
id) and the redirect link; fail models a provider error thrown by the
SDK call. -/
inductive GatewayOutcome where
  | ok (txId : String) (redirect : Option String)
  | fail
deriving DecidableEq, Repr

/-- Return value of createCheckoutSession. -/
structure CheckoutResult where
  url : Option String
  sessionId : String
  bookingId : Nat
deriving DecidableEq, Repr

/-- Return value of createPaypalOrder. -/
structure PaypalOrderResult where
  orderId : String
  approveLink : Option String
  bookingId : Nat
deriving DecidableEq, Repr

/-- Embeds createCheckoutSession (the Stripe reserve path). startParsed
and endParsed are the parsed date inputs as in
parseAndValidateBookingDates; gateway is the outcome of the
stripe.checkout.sessions.create network call. The Stripe SDK call happens
before the database transaction, so a gateway failure leaves the state
untouched; the StripeError catch rethrows BadRequestException with the
message Payment provider error. -/
def createCheckoutSession (st : DBState) (userId listingId : Nat)
    (startParsed endParsed : Option Int) (nowMs : Int)
    (gateway : GatewayOutcome) : Except BookingError CheckoutResult × DBState :=
  match findUserById st userId with
  | none => (.error (.unauthorized "User not found"), st)
  | some _ =>
    match findListingById st listingId with
    | none => (.error (.notFound "Listing not found"), st)
    | some listing =>
      match parseAndValidateBookingDates startParsed endParsed nowMs with
      | .error e => (.error e, st)
      | .ok range =>
        let unitAmountCents := decimalToCents listing.price
        if unitAmountCents ≤ 0 then
          (.error (.badRequest "Invalid listing price"), st)
        else
          match gateway with
          | .fail => (.error (.badRequest "Payment provider error"), st)
          | .ok sessionId url =>
            let totalAmountCents := unitAmountCents * range.nights
            let totalAmountDecimal : Decimal := ⟨totalAmountCents, 2⟩
            let booking : Booking :=
              { id := st.nextId, userId := userId, listingId := listing.id,
                startDate := range.startUtc, endDate := range.endUtc,
                status := BookingStatus.PENDING, totalPrice := totalAmountDecimal }
            let payment : Payment :=
              { id := st.nextId + 1, bookingId := booking.id,
                amount := totalAmountDecimal, currency := "egp",
                status := PaymentStatus.PENDING,
                paymentMethod := PaymentMethod.STRIPE,
                stripePaymentId := some sessionId, paypalOrderId := none,
                paypalCaptureId := none }
            (.ok { url := url, sessionId := sessionId, bookingId := booking.id },
              { st with
                bookings := st.bookings ++ [booking]
                payments := st.payments ++ [payment]
                nextId := st.nextId + 2 })

/-- Embeds createPaypalOrder (the PayPal reserve path). Unlike the Stripe
path, the source commits the Booking and Payment rows in a database
transaction BEFORE executing the PayPal OrdersCreateRequest; if that SDK
call then fails, the catch rethrows InternalServerErrorException and the
two already-committed rows stay in the store (the payment still has no
paypalOrderId). On success a separate update writes the order id onto the
payment. -/
def createPaypalOrder (st : DBState) (userId listingId : Nat)
    (startParsed endParsed : Option Int) (nowMs : Int)
    (gateway : GatewayOutcome) : Except BookingError PaypalOrderResult × DBState :=
  match findUserById st userId with
  | none => (.error (.unauthorized "User not found"), st)
  | some _ =>
    match findListingById st listingId with
    | none => (.error (.notFound "Listing not found"), st)
    | some listing =>
      match parseAndValidateBookingDates startParsed endParsed nowMs with
      | .error e => (.error e, st)
      | .ok range =>
        let unitAmountCents := decimalToCents listing.price
        if unitAmountCents ≤ 0 then
          (.error (.badRequest "Invalid listing price"), st)
        else
          let totalAmountCents := unitAmountCents * range.nights
          let totalAmountDecimal : Decimal := ⟨totalAmountCents, 2⟩
          let booking : Booking :=
            { id := st.nextId, userId := userId, listingId := listing.id,
              startDate := range.startUtc, endDate := range.endUtc,
              status := BookingStatus.PENDING, totalPrice := totalAmountDecimal }
          let payment : Payment :=
            { id := st.nextId + 1, bookingId := booking.id,
              amount := totalAmountDecimal, currency := "usd",
              status := PaymentStatus.PENDING,
              paymentMethod := PaymentMethod.PAYPAL,
              stripePaymentId := none, paypalOrderId := none,
              paypalCaptureId := none }
          let st1 : DBState :=
            { st with
              bookings := st.bookings ++ [booking]
              payments := st.payments ++ [payment]
              nextId := st.nextId + 2 }
          match gateway with
          | .fail =>
            (.error (.internalServer
              "PayPal order creation failed. Please try again later."), st1)
          | .ok orderId approveLink =>
            (.ok { orderId := orderId, approveLink := approveLink,
                   bookingId := booking.id },
              { st1 with
                payments := st1.payments.map (fun p =>
                  if p.id == payment.id then { p with paypalOrderId := some orderId }
                  else p) })

/-! Helper lemmas about the arithmetic and list operations of the model. -/

theorem MS_PER_DAY_pos : (0 : Int) < MS_PER_DAY := by decide

theorem mul_day_fdiv (d : Int) : (d * MS_PER_DAY).fdiv MS_PER_DAY = d :=
  Int.mul_fdiv_cancel d (by decide)

theorem utcMidnight_mul (d : Int) :
    utcMidnight (d * MS_PER_DAY) = d * MS_PER_DAY := by
  unfold utcMidnight
  rw [mul_day_fdiv, Int.mul_comm]

theorem sub_mul_day_fdiv (a b : Int) :
    (a * MS_PER_DAY - b * MS_PER_DAY).fdiv MS_PER_DAY = a - b := by
  have h : a * MS_PER_DAY - b * MS_PER_DAY = (a - b) * MS_PER_DAY := by ring
  rw [h, mul_day_fdiv]

theorem utcMidnight_eq_day_mul (t : Int) :
    utcMidnight t = utcDay t * MS_PER_DAY := by
  unfold utcMidnight utcDay
  ring

theorem roundHalfAwayDiv_mul {k d : Int} (hd : 0 < d) :
    roundHalfAwayDiv (k * d) d = k := by
  unfold roundHalfAwayDiv
  have h2d : (0 : Int) < 2 * d := by omega
  by_cases hk : 0 ≤ k * d
  · rw [if_pos hk, Int.fdiv_eq_ediv _ (le_of_lt h2d)]
    have he : 2 * (k * d) + d = d + k * (2 * d) := by ring
    rw [he, Int.add_mul_ediv_right _ _ (ne_of_gt h2d),
      Int.ediv_eq_zero_of_lt (le_of_lt hd) (by omega), Int.zero_add]
  · rw [if_neg hk, Int.fdiv_eq_ediv _ (le_of_lt h2d)]
    have he : 2 * -(k * d) + d = d + -k * (2 * d) := by ring
    rw [he, Int.add_mul_ediv_right _ _ (ne_of_gt h2d),
      Int.ediv_eq_zero_of_lt (le_of_lt hd) (by omega), Int.zero_add, neg_neg]

theorem mem_expandDates_iff (s n d : Int) :
    d * MS_PER_DAY ∈ expandDatesUtcMidnight (s * MS_PER_DAY) n ↔
      s ≤ d ∧ d < s + n := by
  have hms : MS_PER_DAY = (86400000 : Int) := by decide
  unfold expandDatesUtcMidnight
  constructor
  · intro hmem
    rcases List.mem_map.mp hmem with ⟨i, hir, heq⟩
    have hi : i < n.toNat := List.mem_range.mp hir
    have heq2 : s * MS_PER_DAY + (i : Int) * MS_PER_DAY = d * MS_PER_DAY := heq
    rw [hms] at heq2
    omega
  · rintro ⟨h1, h2⟩
    exact List.mem_map.mpr ⟨(d - s).toNat, List.mem_range.mpr (by omega),
      show s * MS_PER_DAY + ((d - s).toNat : Int) * MS_PER_DAY = d * MS_PER_DAY by
        rw [hms]; omega⟩

theorem length_expandDates (s n : Int) :
    (expandDatesUtcMidnight s n).length = n.toNat := by
  unfold expandDatesUtcMidnight
  rw [List.length_map, List.length_range]

theorem find?_map_pred_preserving {α : Type} (f : α → α) (pr : α → Bool)
    (h : ∀ x, pr (f x) = pr x) (l : List α) :
    (l.map f).find? pr = (l.find? pr).map f := by
  induction l with
  | nil => rfl
  | cons a t ih =>
    by_cases hpa : pr a
    · rw [List.map_cons, List.find?_cons_of_pos _ ((h a).trans hpa),
        List.find?_cons_of_pos _ hpa]
      rfl
    · have hfa : ¬ pr (f a) = true := by rw [h a]; exact hpa
      simp only [List.map_cons, List.find?_cons_of_neg _ hfa,
        List.find?_cons_of_neg _ hpa, ih]

theorem find?_id_of_mem_nodup {l : List Payment}
    (hnd : (l.map (fun p => p.id)).Nodup) {x : Payment} (hx : x ∈ l) :
    l.find? (fun p => p.id == x.id) = some x := by
  induction l with
  | nil => cases hx
  | cons a t ih =>
    rcases List.mem_cons.mp hx with rfl | hxt
    · exact List.find?_cons_of_pos _ (by simp)
    · have hnd2 := hnd
      simp only [List.map_cons, List.nodup_cons] at hnd2
      have haid : a.id ≠ x.id := by
        intro he
        exact hnd2.1 (he ▸ List.mem_map_of_mem (fun p => p.id) hxt)
      rw [List.find?_cons_of_neg _ (by simpa using haid)]
      exact ih hnd2.2 hxt

theorem findCalendarItem_def (cal : List CalendarItem) (listingId : Nat) (d : Int) :
    findCalendarItem cal listingId d =
      cal.find? (fun c => c.listingId == listingId && c.date == d) := rfl

theorem isBookedAt_eq_of_some {cal : List CalendarItem} {listingId : Nat} {d : Int}
    {c : CalendarItem} (h : findCalendarItem cal listingId d = some c) :
    isBookedAt cal listingId d = c.isBooked := by
  unfold isBookedAt
  rw [h]

theorem isBookedAt_eq_of_none {cal : List CalendarItem} {listingId : Nat} {d : Int}
    (h : findCalendarItem cal listingId d = none) :
    isBookedAt cal listingId d = false := by
  unfold isBookedAt
  rw [h]

theorem upsert_pred_preserved (listingId2 : Nat) (d2 : Int) (listingId : Nat)
    (d : Int) (x : CalendarItem) :
    ((fun c => c.listingId == listingId && c.date == d)
      ((fun c => if c.listingId == listingId2 && c.date == d2 then
        { c with isBooked := true } else c) x)) =
    ((fun c => c.listingId == listingId && c.date == d) x) := by
  by_cases hx : (x.listingId == listingId2 && x.date == d2) = true <;> simp [hx]

theorem isBookedAt_upsert_self (cal : List CalendarItem) (listingId : Nat) (d : Int) :
    isBookedAt (upsertCalendarBooked cal listingId d) listingId d = true := by
  by_cases hsome : (findCalendarItem cal listingId d).isSome
  · rcases Option.isSome_iff_exists.mp hsome with ⟨c0, hc0⟩
    have hc0f : cal.find? (fun c => c.listingId == listingId && c.date == d) =
        some c0 := hc0
    have hpred : (c0.listingId == listingId && c0.date == d) = true := by
      have h2 := List.find?_some hc0f
      simpa using h2
    have hupd : findCalendarItem (upsertCalendarBooked cal listingId d) listingId d =
        some { c0 with isBooked := true } := by
      unfold upsertCalendarBooked
      rw [if_pos hsome, findCalendarItem_def,
        find?_map_pred_preserving _ _ (upsert_pred_preserved listingId d listingId d),
        ← findCalendarItem_def, hc0]
      show some (if c0.listingId == listingId && c0.date == d then
          { c0 with isBooked := true } else c0) = some { c0 with isBooked := true }
      rw [if_pos hpred]
    rw [isBookedAt_eq_of_some hupd]
  · have hnone : findCalendarItem cal listingId d = none :=
      Option.not_isSome_iff_eq_none.mp hsome
    have hupd : findCalendarItem (upsertCalendarBooked cal listingId d) listingId d =
        some { listingId := listingId, date := d, isBooked := true } := by
      unfold upsertCalendarBooked
      rw [if_neg hsome, findCalendarItem_def, List.find?_append,
        ← findCalendarItem_def, hnone, Option.none_or]
      simp [List.find?]
    rw [isBookedAt_eq_of_some hupd]

theorem isBookedAt_upsert_mono (cal : List CalendarItem) (listingId listingId2 : Nat)
    (d d2 : Int) (h : isBookedAt cal listingId d = true) :
    isBookedAt (upsertCalendarBooked cal listingId2 d2) listingId d = true := by
  rcases hfind : findCalendarItem cal listingId d with _ | c0
  · rw [isBookedAt_eq_of_none hfind] at h
    cases h
  · rw [isBookedAt_eq_of_some hfind] at h
    unfold upsertCalendarBooked
    by_cases hsome : (findCalendarItem cal listingId2 d2).isSome
    · rw [if_pos hsome]
      have hupd : findCalendarItem (cal.map (fun c =>
          if c.listingId == listingId2 && c.date == d2 then
            { c with isBooked := true } else c)) listingId d =
          some ((fun c => if c.listingId == listingId2 && c.date == d2 then
            { c with isBooked := true } else c) c0) := by
        rw [findCalendarItem_def,
          find?_map_pred_preserving _ _ (upsert_pred_preserved listingId2 d2 listingId d),
          ← findCalendarItem_def, hfind]
        rfl
      rw [isBookedAt_eq_of_some hupd]
      by_cases hc : (c0.listingId == listingId2 && c0.date == d2) = true <;>
        simp [hc, h]
    · rw [if_neg hsome]
      have hupd : findCalendarItem
          (cal ++ [{ listingId := listingId2, date := d2, isBooked := true }])
          listingId d = some c0 := by
        rw [findCalendarItem_def, List.find?_append, ← findCalendarItem_def, hfind]
        rfl
      rw [isBookedAt_eq_of_some hupd]
      exact h

theorem isBookedAt_upsertAll_mono (dates : List Int) (cal : List CalendarItem)
    (listingId listingId2 : Nat) (d : Int)
    (h : isBookedAt cal listingId d = true) :
    isBookedAt (upsertCalendarAll cal listingId2 dates) listingId d = true := by
  induction dates generalizing cal with
  | nil => exact h
  | cons a t ih => exact ih _ (isBookedAt_upsert_mono cal listingId listingId2 d a h)

theorem isBookedAt_upsertAll_of_mem (dates : List Int) (listingId : Nat) (d : Int) :
    ∀ cal : List CalendarItem, d ∈ dates →
      isBookedAt (upsertCalendarAll cal listingId dates) listingId d = true := by
  induction dates with
  | nil => intro cal h; cases h
  | cons a t ih =>
    intro cal hmem
    rcases List.mem_cons.mp hmem with rfl | hdt
    · exact isBookedAt_upsertAll_mono t _ listingId listingId d
        (isBookedAt_upsert_self cal listingId d)
    · exact ih _ hdt

theorem utcMidnight_lt_of_day_lt {a b : Int} (h : utcDay a < utcDay b) :
    utcMidnight a < utcMidnight b := by
  rw [utcMidnight_eq_day_mul, utcMidnight_eq_day_mul]
  exact mul_lt_mul_of_pos_right h MS_PER_DAY_pos

theorem diffDays_eq_day_sub (s e : Int) :
    (utcMidnight e - utcMidnight s).fdiv MS_PER_DAY = utcDay e - utcDay s := by
  rw [utcMidnight_eq_day_mul, utcMidnight_eq_day_mul, sub_mul_day_fdiv]

/-! Claim theorems. -/

/-- C5 counterexample: decimalToCents does not fail on a price with three
decimal places; it rounds 12.345 half away from zero and returns 1235.
The claim that such an input fails with InvalidPriceError is therefore
false: the toFixed(2) call rounds excess precision away before the only
guard in the function, and the guard itself can never fire. -/
theorem decimalToCents_excess_precision_returns_value :
    decimalToCents ⟨12345, 3⟩ = 1235 ∧ decimalToCents ⟨12344, 3⟩ = 1234 := by
  constructor <;> decide

/-- C5 (amended): decimalToCents converts any price with at most two
decimal places to its exact minor-unit integer, with no rounding error:
in particular 12.34 becomes 1234 and 12.3 becomes 1230. Inputs with more
fractional precision are rounded half away from zero to the nearest cent
instead of being rejected (see the counterexample). -/
theorem decimalToCents_exact_within_scale (p : Decimal) (h : p.scale ≤ 2) :
    decimalToCents p = p.num * (10 : Int) ^ (2 - p.scale) := by
  unfold decimalToCents
  have hpow : (10 : Int) ^ (2 - p.scale) * (10 : Int) ^ p.scale = 100 := by
    have hexp : 2 - p.scale + p.scale = 2 := by omega
    rw [← pow_add, hexp]
    norm_num
  have hsplit : p.num * 100 = p.num * (10 : Int) ^ (2 - p.scale) * (10 : Int) ^ p.scale := by
    rw [mul_assoc, hpow]
  rw [hsplit, roundHalfAwayDiv_mul (pow_pos (by norm_num) p.scale)]

/-- C5 witness: the amended exactness theorem instantiated at 12.34 and
12.30. -/
theorem decimalToCents_exact_within_scale_witness :
    decimalToCents ⟨1234, 2⟩ = 1234 * (10 : Int) ^ (2 - 2) ∧
    decimalToCents ⟨123, 1⟩ = 123 * (10 : Int) ^ (2 - 1) :=
  ⟨decimalToCents_exact_within_scale ⟨1234, 2⟩ (by decide),
   decimalToCents_exact_within_scale ⟨123, 1⟩ (by decide)⟩

/-- C6: date-range validation. An unparseable start or end date fails
with the invalid-dates error; when both parse, a check-out calendar day
less than or equal to the check-in calendar day fails with the
invalid-range error; and when the range is valid but the check-in
calendar day is strictly before the current UTC calendar day, validation
fails with the past-date error. -/
theorem dateValidation_errors (s e now : Int) :
    (∀ o : Option Int, parseAndValidateBookingDates none o now =
      .error (.badRequest "Invalid dates")) ∧
    (parseAndValidateBookingDates (some s) none now =
      .error (.badRequest "Invalid dates")) ∧
    (utcDay e ≤ utcDay s →
      parseAndValidateBookingDates (some s) (some e) now =
        .error (.badRequest "endDate must be after startDate")) ∧
    (utcDay s < utcDay e → utcDay s < utcDay now →
      parseAndValidateBookingDates (some s) (some e) now =
        .error (.badRequest "startDate cannot be in the past")) := by
  refine ⟨fun o => by cases o <;> rfl, rfl, ?_, ?_⟩
  · intro h
    simp only [parseAndValidateBookingDates, diffDays_eq_day_sub]
    rw [if_pos (by omega)]
  · intro h1 h2
    simp only [parseAndValidateBookingDates, diffDays_eq_day_sub]
    rw [if_neg (by omega), if_neg (by omega),
      if_pos (utcMidnight_lt_of_day_lt h2)]

/-- C6 witness: the invalid-range and past-date branches at concrete
dates, and an unparseable input. -/
theorem dateValidation_errors_witness :
    parseAndValidateBookingDates (some (12 * MS_PER_DAY)) (some (10 * MS_PER_DAY)) 0 =
      .error (.badRequest "endDate must be after startDate") ∧
    parseAndValidateBookingDates (some (8 * MS_PER_DAY)) (some (12 * MS_PER_DAY))
        (9 * MS_PER_DAY) =
      .error (.badRequest "startDate cannot be in the past") ∧
    parseAndValidateBookingDates none (some (10 * MS_PER_DAY)) 0 =
      .error (.badRequest "Invalid dates") :=
  ⟨(dateValidation_errors (12 * MS_PER_DAY) (10 * MS_PER_DAY) 0).2.2.1 (by decide),
   (dateValidation_errors (8 * MS_PER_DAY) (12 * MS_PER_DAY) (9 * MS_PER_DAY)).2.2.2
     (by decide) (by decide),
   (dateValidation_errors 0 0 0).1 (some (10 * MS_PER_DAY))⟩

/-- C7: night expansion. For every date range accepted by validation,
the night count is at least 1 and equals the whole-day difference between
check-out and check-in; the expanded night list has exactly nights
elements; and a calendar day is in the expanded list exactly when it lies
in the half-open range from the check-in day (inclusive) to the check-out
day (exclusive). -/
theorem nightExpansion_correct (s e now : Int) (r : ValidatedRange)
    (h : parseAndValidateBookingDates (some s) (some e) now = .ok r) :
    1 ≤ r.nights ∧
    r.nights = utcDay e - utcDay s ∧
    (expandDatesUtcMidnight r.startUtc r.nights).length = r.nights.toNat ∧
    (∀ d : Int, d * MS_PER_DAY ∈ expandDatesUtcMidnight r.startUtc r.nights ↔
      (utcDay s ≤ d ∧ d < utcDay e)) := by
  simp only [parseAndValidateBookingDates, diffDays_eq_day_sub] at h
  split_ifs at h with h1 h2 h3
  all_goals cases h
  refine ⟨show (1 : Int) ≤ utcDay e - utcDay s by omega, rfl,
    length_expandDates _ _, fun d => ?_⟩
  show d * MS_PER_DAY ∈
    expandDatesUtcMidnight (utcMidnight s) (utcDay e - utcDay s) ↔ _
  rw [show utcMidnight s = utcDay s * MS_PER_DAY from utcMidnight_eq_day_mul s,
    mem_expandDates_iff]
  constructor <;> intro hd <;> omega

/-- C7 witness: a two-night stay from day 10 to day 12 after validation:
nights is 2, the list has two entries, day 11 is an occupied night and
day 12 (the check-out day) is not. -/
theorem nightExpansion_correct_witness :
    1 ≤ (ValidatedRange.mk (10 * MS_PER_DAY) (12 * MS_PER_DAY) 2).nights ∧
    (11 * MS_PER_DAY ∈ expandDatesUtcMidnight (10 * MS_PER_DAY) 2 ↔
      (utcDay (10 * MS_PER_DAY) ≤ 11 ∧ 11 < utcDay (12 * MS_PER_DAY))) := by
  have h : parseAndValidateBookingDates (some (10 * MS_PER_DAY))
      (some (12 * MS_PER_DAY)) (9 * MS_PER_DAY) =
      .ok ⟨10 * MS_PER_DAY, 12 * MS_PER_DAY, 2⟩ := rfl
  exact ⟨(nightExpansion_correct _ _ _ _ h).1,
    (nightExpansion_correct _ _ _ _ h).2.2.2 11⟩

/-! Concrete fixtures used by the witnesses and counterexamples: one
listing at 100.00 per night, two overlapping pending bookings on it, and
their pending payments. -/

/-- Fixture listing: id 1, nightly price 100.00. -/
def listingA : Listing := ⟨1, ⟨10000, 2⟩⟩

/-- Fixture booking 1: listing 1, nights 10 and 11 (check-out day 12). -/
def bookingB1 : Booking :=
  ⟨1, 7, 1, 10 * MS_PER_DAY, 12 * MS_PER_DAY, .PENDING, ⟨20000, 2⟩⟩

/-- Fixture booking 2: listing 1, nights 11 and 12, overlapping booking 1
on night 11. -/
def bookingB2 : Booking :=
  ⟨2, 8, 1, 11 * MS_PER_DAY, 13 * MS_PER_DAY, .PENDING, ⟨20000, 2⟩⟩

/-- Fixture Stripe payment for booking 1, checkout session s1. -/
def paymentP1 : Payment :=
  ⟨1, 1, ⟨20000, 2⟩, "egp", .PENDING, .STRIPE, some "s1", none, none⟩

/-- Fixture Stripe payment for booking 2, checkout session s2. -/
def paymentP2 : Payment :=
  ⟨2, 2, ⟨20000, 2⟩, "egp", .PENDING, .STRIPE, some "s2", none, none⟩

/-- Fixture PayPal payment for booking 2, order o1, amount 200.00 USD. -/
def paymentP3 : Payment :=
  ⟨3, 2, ⟨20000, 2⟩, "usd", .PENDING, .PAYPAL, none, some "o1", none⟩

/-- Fixture PayPal payment for booking 2, order o2, amount 200.00 USD. -/
def paymentP4 : Payment :=
  ⟨4, 2, ⟨20000, 2⟩, "usd", .PENDING, .PAYPAL, none, some "o2", none⟩

/-- Fixture store holding the two bookings: booking 1 paid by Stripe,
booking 2 holding both a Stripe and a PayPal pending payment; empty
calendar. -/
def stateS0 : DBState :=
  ⟨[7, 8], [listingA], [bookingB1, bookingB2],
   [paymentP1, paymentP2, paymentP4], [], 5⟩

/-- Fixture store holding booking 2 with its PayPal payment. -/
def statePP : DBState := ⟨[7, 8], [listingA], [bookingB2], [paymentP3], [], 4⟩

/-- Fixture Stripe completed-checkout event for session s1. -/
def stripeEv1 : StripeEvent :=
  ⟨"checkout.session.completed", "s1", none, some 20000, some "egp"⟩

/-- Fixture Stripe completed-checkout event for session s2. -/
def stripeEv2 : StripeEvent :=
  ⟨"checkout.session.completed", "s2", none, some 20000, some "egp"⟩

/-- Fixture PayPal capture-completed event for order o2 (the PayPal
payment of booking 2) with the matching amount 200.00 USD. -/
def paypalEvB2 : PaypalEvent :=
  ⟨"PAYMENT.CAPTURE.COMPLETED", "e2", some "c2", some "o2", some ⟨200, 0⟩, some "USD"⟩

/-- Fixture PayPal capture-completed event for order o1 with the correct
amount 200.00 USD. -/
def paypalEvOk : PaypalEvent :=
  ⟨"PAYMENT.CAPTURE.COMPLETED", "e1", some "c1", some "o1", some ⟨200, 0⟩, some "USD"⟩

/-- C8: a signature-verified completed-payment notification whose
correlation id matches no stored payment is acknowledged with the success
response, and the store is left entirely unchanged, on both the Stripe
and the PayPal webhook paths. -/
theorem unknownPayment_acknowledged_unchanged (st : DBState) (sev : StripeEvent)
    (pev : PaypalEvent)
    (hs : findPaymentByStripeId st sev.sessionId = none)
    (hp : ∀ oid, pev.relatedOrderId = some oid →
      findPaymentByPaypalOrder st oid = none) :
    handleStripeWebhook st sev = (.received, st) ∧
    handlePaypalWebhook st pev = (.received, st) := by
  constructor
  · unfold handleStripeWebhook
    split
    · rfl
    · simp [hs]
  · unfold handlePaypalWebhook
    split
    · rfl
    · cases ho : pev.relatedOrderId with
      | none => rfl
      | some oid => simp [hp oid ho]

/-- C8 witness: a Stripe event for an unknown session s9 and a PayPal
event for order o1 against a store with no payments. -/
theorem unknownPayment_acknowledged_unchanged_witness :
    handleStripeWebhook stateS0 ⟨"checkout.session.completed", "s9", none, none, none⟩ =
      (.received, stateS0) ∧
    handlePaypalWebhook stateS0 paypalEvOk = (.received, stateS0) :=
  unknownPayment_acknowledged_unchanged stateS0
    ⟨"checkout.session.completed", "s9", none, none, none⟩ paypalEvOk
    (by decide)
    (fun oid h => by
      simp only [paypalEvOk] at h
      cases h
      decide)

/-- C2: idempotent confirmation. If the payment a completed-payment
notification correlates to is already SUCCEEDED, re-processing the
notification returns the acknowledged result and leaves the store
untouched, on both webhook paths; iterating the handler any number of
times from that store never changes it, so exactly the one original set
of calendar writes ever occurs. -/
theorem succeededPayment_replay_noop (st : DBState) (sev : StripeEvent)
    (pev : PaypalEvent) (p q : Payment) (oid : String)
    (hs : findPaymentByStripeId st sev.sessionId = some p)
    (hps : p.status = PaymentStatus.SUCCEEDED)
    (ho : pev.relatedOrderId = some oid)
    (hq : findPaymentByPaypalOrder st oid = some q)
    (hqs : q.status = PaymentStatus.SUCCEEDED) :
    handleStripeWebhook st sev = (.received, st) ∧
    handlePaypalWebhook st pev = (.received, st) ∧
    (∀ n : Nat, (fun s => (handleStripeWebhook s sev).2)^[n] st = st) ∧
    (∀ n : Nat, (fun s => (handlePaypalWebhook s pev).2)^[n] st = st) := by
  have hstripe : handleStripeWebhook st sev = (.received, st) := by
    unfold handleStripeWebhook
    split
    · rfl
    · cases hb : findBookingById st p.bookingId with
      | none => simp [hs, hb]
      | some b => simp [hs, hb, hps]
  have hpaypal : handlePaypalWebhook st pev = (.received, st) := by
    unfold handlePaypalWebhook
    split
    · rfl
    · cases hb : findBookingById st q.bookingId with
      | none => simp [ho, hq, hb]
      | some b => simp [ho, hq, hb, hqs]
  refine ⟨hstripe, hpaypal, fun n => ?_, fun n => ?_⟩
  · induction n with
    | zero => rfl
    | succ k ih => rw [Function.iterate_succ_apply, hstripe]; exact ih
  · induction n with
    | zero => rfl
    | succ k ih => rw [Function.iterate_succ_apply, hpaypal]; exact ih


/-- Fixture store in which both the Stripe payment (session s1) and the
PayPal payment (order o1) are already SUCCEEDED. -/
def stateDone : DBState :=
  ⟨[7, 8], [listingA],
   [{ bookingB1 with status := .CONFIRMED }],
   [{ paymentP1 with status := .SUCCEEDED }, { paymentP3 with status := .SUCCEEDED }],
   [⟨1, 10 * MS_PER_DAY, true⟩, ⟨1, 11 * MS_PER_DAY, true⟩], 4⟩

/-- C2 witness: replaying the completed-checkout event for s1 and the
capture-completed event for o1 against the already-confirmed store is a
no-op, and three consecutive replays leave the store fixed. -/
theorem succeededPayment_replay_noop_witness :
    handleStripeWebhook stateDone stripeEv1 = (.received, stateDone) ∧
    handlePaypalWebhook stateDone paypalEvOk = (.received, stateDone) ∧
    (fun s => (handleStripeWebhook s stripeEv1).2)^[3] stateDone = stateDone ∧
    (fun s => (handlePaypalWebhook s paypalEvOk).2)^[3] stateDone = stateDone := by
  have h := succeededPayment_replay_noop stateDone stripeEv1 paypalEvOk
    { paymentP1 with status := .SUCCEEDED } { paymentP3 with status := .SUCCEEDED }
    "o1" (by decide) (by decide) (by decide) (by decide) (by decide)
  exact ⟨h.1, h.2.1, h.2.2.1 3, h.2.2.2 3⟩

/-- C10: a reserve request against a listing whose converted nightly
price is not positive is rejected with the invalid-price error, with the
store unchanged, and this happens regardless of the gateway outcome:
the rejection fires before the gateway transaction would be created and
before any booking or payment row is written, on both provider paths. -/
theorem nonpositivePrice_rejected_before_gateway (st : DBState)
    (uid lid : Nat) (sp ep : Option Int) (now : Int) (u : Nat) (listing : Listing)
    (r : ValidatedRange)
    (hu : findUserById st uid = some u)
    (hl : findListingById st lid = some listing)
    (hr : parseAndValidateBookingDates sp ep now = .ok r)
    (hp : decimalToCents listing.price ≤ 0) :
    ∀ g : GatewayOutcome,
      createCheckoutSession st uid lid sp ep now g =
        (.error (.badRequest "Invalid listing price"), st) ∧
      createPaypalOrder st uid lid sp ep now g =
        (.error (.badRequest "Invalid listing price"), st) := by
  intro g
  constructor
  · unfold createCheckoutSession
    simp [hu, hl, hr, hp]
  · unfold createPaypalOrder
    simp [hu, hl, hr, hp]

/-- C10 witness: a listing priced 0.00 with a valid future date range is
rejected on both paths even when the gateway would have succeeded. -/
theorem nonpositivePrice_rejected_before_gateway_witness :
    createCheckoutSession
        ⟨[7], [⟨5, ⟨0, 2⟩⟩], [], [], [], 1⟩ 7 5
        (some (20 * MS_PER_DAY)) (some (22 * MS_PER_DAY)) (19 * MS_PER_DAY)
        (.ok "sx" (some "u")) =
      (.error (.badRequest "Invalid listing price"), ⟨[7], [⟨5, ⟨0, 2⟩⟩], [], [], [], 1⟩) ∧
    createPaypalOrder
        ⟨[7], [⟨5, ⟨0, 2⟩⟩], [], [], [], 1⟩ 7 5
        (some (20 * MS_PER_DAY)) (some (22 * MS_PER_DAY)) (19 * MS_PER_DAY)
        (.ok "ox" (some "u")) =
      (.error (.badRequest "Invalid listing price"), ⟨[7], [⟨5, ⟨0, 2⟩⟩], [], [], [], 1⟩) := by
  have h : parseAndValidateBookingDates (some (20 * MS_PER_DAY))
      (some (22 * MS_PER_DAY)) (19 * MS_PER_DAY) =
      .ok ⟨20 * MS_PER_DAY, 22 * MS_PER_DAY, 2⟩ := rfl
  exact nonpositivePrice_rejected_before_gateway _ 7 5 _ _ _ 7 ⟨5, ⟨0, 2⟩⟩ _
    (by decide) (by decide) h (by decide) (.ok "sx" (some "u"))


/-- Fixture PayPal capture-completed event for order o1 whose reported
amount 199.00 disagrees with the stored 200.00. -/
def paypalEvBadAmt : PaypalEvent :=
  ⟨"PAYMENT.CAPTURE.COMPLETED", "e1", some "c1", some "o1", some ⟨199, 0⟩, some "USD"⟩

/-- Fixture PayPal capture-completed event for order o1 whose reported
amount matches but whose reported currency EUR disagrees with the stored
usd. -/
def paypalEvBadCur : PaypalEvent :=
  ⟨"PAYMENT.CAPTURE.COMPLETED", "e1", some "c1", some "o1", some ⟨200, 0⟩, some "EUR"⟩

/-- C3 counterexample: on the PayPal reserve path a gateway failure does
not leave the store untouched. Starting from an empty ledger, a reserve
request whose PayPal order creation fails still returns with one Booking
row and one Payment row persisted (the source commits them in a database
transaction before calling the gateway), refuting the claim that no row
from the attempt remains. -/
theorem reserve_gateway_failure_counterexample :
    (createPaypalOrder ⟨[7], [⟨5, ⟨10000, 2⟩⟩], [], [], [], 1⟩ 7 5
        (some (20 * MS_PER_DAY)) (some (22 * MS_PER_DAY)) (19 * MS_PER_DAY) .fail).1 =
      .error (.internalServer "PayPal order creation failed. Please try again later.") ∧
    (createPaypalOrder ⟨[7], [⟨5, ⟨10000, 2⟩⟩], [], [], [], 1⟩ 7 5
        (some (20 * MS_PER_DAY)) (some (22 * MS_PER_DAY)) (19 * MS_PER_DAY) .fail).2.bookings.length = 1 ∧
    (createPaypalOrder ⟨[7], [⟨5, ⟨10000, 2⟩⟩], [], [], [], 1⟩ 7 5
        (some (20 * MS_PER_DAY)) (some (22 * MS_PER_DAY)) (19 * MS_PER_DAY) .fail).2.payments.length = 1 :=
  ⟨rfl, by decide, by decide⟩

/-- C3 (amended): when the gateway call fails, the Stripe reserve path
fails with the provider error and persists nothing, while the PayPal
reserve path fails with the gateway error but leaves exactly the
PENDING Booking row and PENDING Payment row it committed before the
gateway call (the payment still without an external order id). -/
theorem reserve_gateway_failure_amended (st : DBState) (uid lid : Nat)
    (sp ep : Option Int) (now : Int) (u : Nat) (listing : Listing)
    (r : ValidatedRange)
    (hu : findUserById st uid = some u)
    (hl : findListingById st lid = some listing)
    (hr : parseAndValidateBookingDates sp ep now = .ok r)
    (hp : 0 < decimalToCents listing.price) :
    createCheckoutSession st uid lid sp ep now .fail =
      (.error (.badRequest "Payment provider error"), st) ∧
    createPaypalOrder st uid lid sp ep now .fail =
      (.error (.internalServer "PayPal order creation failed. Please try again later."),
        { st with
          bookings := st.bookings ++
            [{ id := st.nextId, userId := uid, listingId := listing.id,
               startDate := r.startUtc, endDate := r.endUtc,
               status := BookingStatus.PENDING,
               totalPrice := ⟨decimalToCents listing.price * r.nights, 2⟩ }],
          payments := st.payments ++
            [{ id := st.nextId + 1, bookingId := st.nextId,
               amount := ⟨decimalToCents listing.price * r.nights, 2⟩,
               currency := "usd", status := PaymentStatus.PENDING,
               paymentMethod := PaymentMethod.PAYPAL, stripePaymentId := none,
               paypalOrderId := none, paypalCaptureId := none }],
          nextId := st.nextId + 2 }) := by
  have hnp : ¬ decimalToCents listing.price ≤ 0 := by omega
  constructor
  · unfold createCheckoutSession
    simp [hu, hl, hr, hnp]
  · unfold createPaypalOrder
    simp [hu, hl, hr, hnp]

/-- C3 witness: the amended theorem at the concrete empty ledger of the
counterexample. -/
theorem reserve_gateway_failure_amended_witness :
    createCheckoutSession ⟨[7], [⟨5, ⟨10000, 2⟩⟩], [], [], [], 1⟩ 7 5
        (some (20 * MS_PER_DAY)) (some (22 * MS_PER_DAY)) (19 * MS_PER_DAY) .fail =
      (.error (.badRequest "Payment provider error"),
        ⟨[7], [⟨5, ⟨10000, 2⟩⟩], [], [], [], 1⟩) ∧
    createPaypalOrder ⟨[7], [⟨5, ⟨10000, 2⟩⟩], [], [], [], 1⟩ 7 5
        (some (20 * MS_PER_DAY)) (some (22 * MS_PER_DAY)) (19 * MS_PER_DAY) .fail =
      (.error (.internalServer "PayPal order creation failed. Please try again later."),
        { (⟨[7], [⟨5, ⟨10000, 2⟩⟩], [], [], [], 1⟩ : DBState) with
          bookings := [] ++
            [{ id := 1, userId := 7, listingId := 5,
               startDate := (⟨20 * MS_PER_DAY, 22 * MS_PER_DAY, 2⟩ : ValidatedRange).startUtc,
               endDate := (⟨20 * MS_PER_DAY, 22 * MS_PER_DAY, 2⟩ : ValidatedRange).endUtc,
               status := BookingStatus.PENDING,
               totalPrice := ⟨decimalToCents ⟨10000, 2⟩ * 2, 2⟩ }],
          payments := [] ++
            [{ id := 2, bookingId := 1,
               amount := ⟨decimalToCents ⟨10000, 2⟩ * 2, 2⟩,
               currency := "usd", status := PaymentStatus.PENDING,
               paymentMethod := PaymentMethod.PAYPAL, stripePaymentId := none,
               paypalOrderId := none, paypalCaptureId := none }],
          nextId := 3 }) := by
  have h : parseAndValidateBookingDates (some (20 * MS_PER_DAY))
      (some (22 * MS_PER_DAY)) (19 * MS_PER_DAY) =
      .ok ⟨20 * MS_PER_DAY, 22 * MS_PER_DAY, 2⟩ := rfl
  exact reserve_gateway_failure_amended _ 7 5 _ _ _ 7 ⟨5, ⟨10000, 2⟩⟩ _
    (by decide) (by decide) h (by decide)

/-- C4 counterexample: the claim fails in both directions. On the PayPal
path a reported-amount mismatch is rejected with a 400 error (so the
provider will retry), not flagged-and-acknowledged; and on the Stripe
path a notification whose reported amount (1 cent) disagrees with the
stored 200.00 payment is not stopped at all: the handler acknowledges it
and performs the full confirmation, mutating the store. -/
theorem amountMismatch_counterexample :
    handlePaypalWebhook statePP paypalEvBadAmt =
      (.badRequest "Paid amount mismatch", statePP) ∧
    (handleStripeWebhook stateS0
      ⟨"checkout.session.completed", "s1", none, some 1, some "egp"⟩).1 = .received ∧
    (handleStripeWebhook stateS0
      ⟨"checkout.session.completed", "s1", none, some 1, some "egp"⟩).2 ≠ stateS0 := by
  refine ⟨by decide, by decide, by decide⟩

/-- C4 (amended): on the PayPal path, a completed-capture notification
whose reported amount disagrees with the stored payment, or whose
reported currency disagrees with the stored currency code, aborts before
any mutation but is rejected with a 400 error rather than acknowledged
(the amount case with the amount-mismatch message, the currency case
with the currency-mismatch message); the Stripe handler performs no
amount or currency comparison at all: its outcome is identical for any
reported amount and currency. -/
theorem amountMismatch_amended (st : DBState) (ev : PaypalEvent) (oid : String)
    (p : Payment) (b : Booking) (paid : Decimal)
    (stc : DBState) (evc : PaypalEvent) (oidc : String)
    (qc : Payment) (bc : Booking) (codec : String)
    (hty : ev.eventType = "PAYMENT.CAPTURE.COMPLETED")
    (ho : ev.relatedOrderId = some oid)
    (hq : findPaymentByPaypalOrder st oid = some p)
    (hb : findBookingById st p.bookingId = some b)
    (hps : p.status ≠ PaymentStatus.SUCCEEDED)
    (hav : ev.amountValue = some paid)
    (hne : paid.equals p.amount = false)
    (htyc : evc.eventType = "PAYMENT.CAPTURE.COMPLETED")
    (hoc : evc.relatedOrderId = some oidc)
    (hqc : findPaymentByPaypalOrder stc oidc = some qc)
    (hbc : findBookingById stc qc.bookingId = some bc)
    (hqsc : qc.status ≠ PaymentStatus.SUCCEEDED)
    (hamtc : ∀ paid2, evc.amountValue = some paid2 →
      Decimal.equals paid2 qc.amount = true)
    (hcodc : evc.currencyCode = some codec)
    (hne1c : asciiUpper qc.currency ≠ "")
    (hne2c : asciiUpper qc.currency ≠ asciiUpper codec) :
    handlePaypalWebhook st ev = (.badRequest "Paid amount mismatch", st) ∧
    handlePaypalWebhook stc evc = (.badRequest "Currency mismatch", stc) ∧
    (∀ (st2 : DBState) (sev : StripeEvent) (a1 a2 : Option Int)
        (c1 c2 : Option String),
      handleStripeWebhook st2 { sev with amountTotal := a1, currency := c1 } =
        handleStripeWebhook st2 { sev with amountTotal := a2, currency := c2 }) := by
  refine ⟨?_, ?_, ?_⟩
  · unfold handlePaypalWebhook
    split
    · rename_i hcontra
      exact absurd hty hcontra
    · simp [ho, hq, hb, hps, hav, hne]
  · unfold handlePaypalWebhook
    split
    · rename_i hcontra
      exact absurd htyc hcontra
    · cases hv : evc.amountValue with
      | none => simp [hoc, hqc, hbc, hqsc, hv, hcodc, hne1c, hne2c]
      | some paid2 =>
        simp [hoc, hqc, hbc, hqsc, hv, hamtc paid2 hv, hcodc, hne1c, hne2c]
  · intro st2 sev a1 a2 c1 c2
    rfl

/-- C4 witness: the amended theorem at the PayPal amount-mismatch and
currency-mismatch fixtures, with the Stripe-indifference conjunct
instantiated at reported amount 1 versus the stored 20000. -/
theorem amountMismatch_amended_witness :
    handlePaypalWebhook statePP paypalEvBadAmt =
      (.badRequest "Paid amount mismatch", statePP) ∧
    handlePaypalWebhook statePP paypalEvBadCur =
      (.badRequest "Currency mismatch", statePP) ∧
    handleStripeWebhook stateS0 { stripeEv1 with amountTotal := some 1, currency := some "x" } =
      handleStripeWebhook stateS0 { stripeEv1 with amountTotal := some 20000, currency := some "egp" } := by
  have h := amountMismatch_amended statePP paypalEvBadAmt "o1" paymentP3 bookingB2
    ⟨199, 0⟩ statePP paypalEvBadCur "o1" paymentP3 bookingB2 "EUR"
    (by decide) (by decide) (by decide) (by decide) (by decide)
    (by decide) (by decide)
    (by decide) (by decide) (by decide) (by decide) (by decide)
    (fun paid2 h2 => by
      simp only [paypalEvBadCur] at h2
      cases h2
      decide)
    (by decide) (by decide) (by decide)
  exact ⟨h.1, h.2.1,
    h.2.2 stateS0 stripeEv1 (some 1) (some 20000) (some "x") (some "egp")⟩


theorem findPaymentByStripeId_setSucceeded (ps : List Payment) (pid : Nat)
    (sid : String) :
    (setPaymentSucceeded ps pid).find? (fun p => p.stripePaymentId == some sid) =
      (ps.find? (fun p => p.stripePaymentId == some sid)).map
        (fun p => if p.id == pid then { p with status := PaymentStatus.SUCCEEDED }
          else p) := by
  unfold setPaymentSucceeded
  exact find?_map_pred_preserving _ _
    (fun x => by by_cases hx : (x.id == pid) = true <;> simp [hx]) ps

theorem findBooking_setConfirmed (bs : List Booking) (bid bid2 : Nat) :
    (setBookingConfirmed bs bid2).find? (fun b => b.id == bid) =
      (bs.find? (fun b => b.id == bid)).map
        (fun b => if b.id == bid2 then { b with status := BookingStatus.CONFIRMED }
          else b) := by
  unfold setBookingConfirmed
  exact find?_map_pred_preserving _ _
    (fun x => by by_cases hx : (x.id == bid2) = true <;> simp [hx]) bs

theorem findPaymentByPaypalOrder_setSucceeded (ps : List Payment) (pid : Nat)
    (oid : String) :
    (setPaymentSucceeded ps pid).find? (fun p =>
      p.paymentMethod == PaymentMethod.PAYPAL && p.paypalOrderId == some oid) =
      (ps.find? (fun p =>
        p.paymentMethod == PaymentMethod.PAYPAL && p.paypalOrderId == some oid)).map
        (fun p => if p.id == pid then { p with status := PaymentStatus.SUCCEEDED }
          else p) := by
  unfold setPaymentSucceeded
  exact find?_map_pred_preserving _ _
    (fun x => by by_cases hx : (x.id == pid) = true <;> simp [hx]) ps

/-- Helper: the PayPal webhook rejects a capture-completed notification
with the date-conflict error, leaving the store untouched, whenever the
matched pending payment's booking has some recomputed night already
booked and the reported amount and currency agree with the stored
payment. -/
theorem handlePaypalWebhook_conflict (st : DBState) (ev : PaypalEvent)
    (oid : String) (p : Payment) (b : Booking)
    (hty : ev.eventType = "PAYMENT.CAPTURE.COMPLETED")
    (ho : ev.relatedOrderId = some oid)
    (hq : findPaymentByPaypalOrder st oid = some p)
    (hb : findBookingById st p.bookingId = some b)
    (hps : p.status ≠ PaymentStatus.SUCCEEDED)
    (hamt : ∀ paid, ev.amountValue = some paid →
      Decimal.equals paid p.amount = true)
    (hcur : ∀ code, ev.currencyCode = some code →
      asciiUpper p.currency = asciiUpper code)
    (hconf : (expandDatesUtcMidnight (utcMidnight b.startDate)
      ((utcMidnight b.endDate - utcMidnight b.startDate).fdiv MS_PER_DAY)).any
        (fun d => isBookedAt st.calendar b.listingId d) = true) :
    handlePaypalWebhook st ev = (.badRequest "Some dates are already booked", st) := by
  simp only [handlePaypalWebhook]
  split
  next h => exact absurd hty h
  next h =>
    split
    next heq => rw [ho] at heq; cases heq
    next oid2 heq =>
      rw [ho] at heq
      injection heq with h2
      subst h2
      split
      next heq2 => rw [hq] at heq2; cases heq2
      next p2 heq2 =>
        rw [hq] at heq2
        injection heq2 with h3
        subst h3
        split
        next heq3 => rw [hb] at heq3; cases heq3
        next b2 heq3 =>
          rw [hb] at heq3
          injection heq3 with h4
          subst h4
          split
          next hps2 => exact absurd hps2 hps
          next =>
            split
            next hamt2 =>
              exfalso
              cases hv : ev.amountValue with
              | none => rw [hv] at hamt2; simp at hamt2
              | some paid =>
                rw [hv] at hamt2
                simp [hamt paid hv] at hamt2
            next =>
              split
              next hcur2 =>
                exfalso
                cases hv : ev.currencyCode with
                | none => rw [hv] at hcur2; simp at hcur2
                | some code =>
                  rw [hv] at hcur2
                  simp [hcur code hv] at hcur2
              next =>
                rfl


/-- C1: no double booking at confirmation. If two pending bookings for
the same listing have overlapping (midnight-aligned) date ranges,
booking 1 has all of its nights still free, and booking 1 confirms
first, then the subsequent confirmation attempt for booking 2 fails
with the date-conflict error and returns the store exactly as booking 1
left it: no CalendarItem row booking 1 set (nor any other row) is
altered. This holds for booking 2 paying through either provider path:
the Stripe webhook (ev2 / payment p2) and the PayPal webhook (ev2p /
payment p2p, with agreeing reported amount and currency) are both
rejected. The conflict check and the calendar writes happen inside the
one transaction modelled by each handler. -/
theorem no_double_booking (st0 : DBState) (ev1 ev2 : StripeEvent)
    (ev2p : PaypalEvent) (p1 p2 p2p : Payment) (b1 b2 : Booking)
    (oidp : String) (ds1 de1 ds2 de2 : Int)
    (hty1 : ev1.type = "checkout.session.completed")
    (hty2 : ev2.type = "checkout.session.completed")
    (hp1 : findPaymentByStripeId st0 ev1.sessionId = some p1)
    (hb1 : findBookingById st0 p1.bookingId = some b1)
    (hp1s : p1.status ≠ PaymentStatus.SUCCEEDED)
    (hp2 : findPaymentByStripeId st0 ev2.sessionId = some p2)
    (hb2 : findBookingById st0 p2.bookingId = some b2)
    (hp2s : p2.status ≠ PaymentStatus.SUCCEEDED)
    (hpid : p2.id ≠ p1.id) (hbid : b2.id ≠ b1.id)
    (hlst : b2.listingId = b1.listingId)
    (hty2p : ev2p.eventType = "PAYMENT.CAPTURE.COMPLETED")
    (ho2p : ev2p.relatedOrderId = some oidp)
    (hq2p : findPaymentByPaypalOrder st0 oidp = some p2p)
    (hb2p : findBookingById st0 p2p.bookingId = some b2)
    (hp2ps : p2p.status ≠ PaymentStatus.SUCCEEDED)
    (hpidp : p2p.id ≠ p1.id)
    (hamtp : ∀ paid, ev2p.amountValue = some paid →
      Decimal.equals paid p2p.amount = true)
    (hcurp : ∀ code, ev2p.currencyCode = some code →
      asciiUpper p2p.currency = asciiUpper code)
    (hs1 : b1.startDate = ds1 * MS_PER_DAY) (he1 : b1.endDate = de1 * MS_PER_DAY)
    (hs2 : b2.startDate = ds2 * MS_PER_DAY) (he2 : b2.endDate = de2 * MS_PER_DAY)
    (hov : max ds1 ds2 < min de1 de2)
    (hfree : ∀ d ∈ expandDatesUtcMidnight (ds1 * MS_PER_DAY) (de1 - ds1),
      isBookedAt st0.calendar b1.listingId d = false) :
    (handleStripeWebhook st0 ev1).1 = .received ∧
    handleStripeWebhook (handleStripeWebhook st0 ev1).2 ev2 =
      (.badRequest "Some dates are already booked",
        (handleStripeWebhook st0 ev1).2) ∧
    handlePaypalWebhook (handleStripeWebhook st0 ev1).2 ev2p =
      (.badRequest "Some dates are already booked",
        (handleStripeWebhook st0 ev1).2) := by
  have hA : ds1 ≤ max ds1 ds2 := le_max_left _ _
  have hB : ds2 ≤ max ds1 ds2 := le_max_right _ _
  have hC : max ds1 ds2 < de1 := lt_of_lt_of_le hov (min_le_left _ _)
  have hD : max ds1 ds2 < de2 := lt_of_lt_of_le hov (min_le_right _ _)
  have hany1 : (expandDatesUtcMidnight (ds1 * MS_PER_DAY) (de1 - ds1)).any
      (fun d => isBookedAt st0.calendar b1.listingId d) = false := by
    rw [List.any_eq_false]
    intro d hd
    simp [hfree d hd]
  have h1 : handleStripeWebhook st0 ev1 =
      (.received,
        { st0 with
          calendar := upsertCalendarAll st0.calendar b1.listingId
            (expandDatesUtcMidnight (ds1 * MS_PER_DAY) (de1 - ds1))
          bookings := setBookingConfirmed st0.bookings b1.id
          payments := setPaymentSucceeded st0.payments p1.id }) := by
    unfold handleStripeWebhook
    rw [if_neg (by simp [hty1])]
    simp only [hp1, hb1]
    rw [if_neg hp1s, hs1, he1, utcMidnight_mul, utcMidnight_mul, sub_mul_day_fdiv,
      if_neg (by simp [hany1])]
  have hp2x : findPaymentByStripeId
      { st0 with
        calendar := upsertCalendarAll st0.calendar b1.listingId
          (expandDatesUtcMidnight (ds1 * MS_PER_DAY) (de1 - ds1))
        bookings := setBookingConfirmed st0.bookings b1.id
        payments := setPaymentSucceeded st0.payments p1.id } ev2.sessionId =
      some p2 := by
    show (setPaymentSucceeded st0.payments p1.id).find?
      (fun p => p.stripePaymentId == some ev2.sessionId) = some p2
    rw [findPaymentByStripeId_setSucceeded]
    have hfind : st0.payments.find?
        (fun p => p.stripePaymentId == some ev2.sessionId) = some p2 := hp2
    rw [hfind]
    simp [hpid]
  have hb2x : findBookingById
      { st0 with
        calendar := upsertCalendarAll st0.calendar b1.listingId
          (expandDatesUtcMidnight (ds1 * MS_PER_DAY) (de1 - ds1))
        bookings := setBookingConfirmed st0.bookings b1.id
        payments := setPaymentSucceeded st0.payments p1.id } p2.bookingId =
      some b2 := by
    show (setBookingConfirmed st0.bookings b1.id).find?
      (fun b => b.id == p2.bookingId) = some b2
    rw [findBooking_setConfirmed]
    have hfind : st0.bookings.find? (fun b => b.id == p2.bookingId) = some b2 := hb2
    rw [hfind]
    simp [hbid]
  have hd0mem1 : (max ds1 ds2) * MS_PER_DAY ∈
      expandDatesUtcMidnight (ds1 * MS_PER_DAY) (de1 - ds1) :=
    (mem_expandDates_iff _ _ _).mpr ⟨by omega, by omega⟩
  have hd0mem2 : (max ds1 ds2) * MS_PER_DAY ∈
      expandDatesUtcMidnight (ds2 * MS_PER_DAY) (de2 - ds2) :=
    (mem_expandDates_iff _ _ _).mpr ⟨by omega, by omega⟩
  have hbooked : isBookedAt
      (upsertCalendarAll st0.calendar b1.listingId
        (expandDatesUtcMidnight (ds1 * MS_PER_DAY) (de1 - ds1)))
      b2.listingId ((max ds1 ds2) * MS_PER_DAY) = true := by
    rw [hlst]
    exact isBookedAt_upsertAll_of_mem _ _ _ _ hd0mem1
  have hany2 : (expandDatesUtcMidnight (ds2 * MS_PER_DAY) (de2 - ds2)).any
      (fun d => isBookedAt
        (upsertCalendarAll st0.calendar b1.listingId
          (expandDatesUtcMidnight (ds1 * MS_PER_DAY) (de1 - ds1)))
        b2.listingId d) = true :=
    List.any_eq_true.mpr ⟨(max ds1 ds2) * MS_PER_DAY, hd0mem2, hbooked⟩
  have hq2px : findPaymentByPaypalOrder
      { st0 with
        calendar := upsertCalendarAll st0.calendar b1.listingId
          (expandDatesUtcMidnight (ds1 * MS_PER_DAY) (de1 - ds1))
        bookings := setBookingConfirmed st0.bookings b1.id
        payments := setPaymentSucceeded st0.payments p1.id } oidp = some p2p := by
    show (setPaymentSucceeded st0.payments p1.id).find? (fun p =>
      p.paymentMethod == PaymentMethod.PAYPAL && p.paypalOrderId == some oidp) =
      some p2p
    rw [findPaymentByPaypalOrder_setSucceeded]
    have hfind : st0.payments.find? (fun p =>
        p.paymentMethod == PaymentMethod.PAYPAL && p.paypalOrderId == some oidp) =
        some p2p := hq2p
    rw [hfind]
    simp [hpidp]
  have hb2px : findBookingById
      { st0 with
        calendar := upsertCalendarAll st0.calendar b1.listingId
          (expandDatesUtcMidnight (ds1 * MS_PER_DAY) (de1 - ds1))
        bookings := setBookingConfirmed st0.bookings b1.id
        payments := setPaymentSucceeded st0.payments p1.id } p2p.bookingId =
      some b2 := by
    show (setBookingConfirmed st0.bookings b1.id).find?
      (fun b => b.id == p2p.bookingId) = some b2
    rw [findBooking_setConfirmed]
    have hfind : st0.bookings.find? (fun b => b.id == p2p.bookingId) = some b2 :=
      hb2p
    rw [hfind]
    simp [hbid]
  have hconf2p : (expandDatesUtcMidnight (utcMidnight b2.startDate)
      ((utcMidnight b2.endDate - utcMidnight b2.startDate).fdiv MS_PER_DAY)).any
        (fun d => isBookedAt
          (upsertCalendarAll st0.calendar b1.listingId
            (expandDatesUtcMidnight (ds1 * MS_PER_DAY) (de1 - ds1)))
          b2.listingId d) = true := by
    rw [hs2, he2, utcMidnight_mul, utcMidnight_mul, sub_mul_day_fdiv]
    exact hany2
  refine ⟨by rw [h1], ?_, ?_⟩
  · rw [h1]
    unfold handleStripeWebhook
    rw [if_neg (by simp [hty2])]
    simp only [hp2x, hb2x]
    rw [if_neg hp2s, hs2, he2, utcMidnight_mul, utcMidnight_mul, sub_mul_day_fdiv,
      if_pos hany2]
  · rw [h1]
    exact handlePaypalWebhook_conflict _ ev2p oidp p2p b2 hty2p ho2p hq2px hb2px
      hp2ps hamtp hcurp hconf2p

/-- C1 witness: booking 1 (nights 10 and 11) confirms via session s1
against the empty calendar; the confirmation attempts for the
overlapping booking 2 (nights 11 and 12) then fail with the
date-conflict error and leave the store untouched, both through its
Stripe payment (session s2) and through its PayPal payment (order o2). -/
theorem no_double_booking_witness :
    (handleStripeWebhook stateS0 stripeEv1).1 = .received ∧
    handleStripeWebhook (handleStripeWebhook stateS0 stripeEv1).2 stripeEv2 =
      (.badRequest "Some dates are already booked",
        (handleStripeWebhook stateS0 stripeEv1).2) ∧
    handlePaypalWebhook (handleStripeWebhook stateS0 stripeEv1).2 paypalEvB2 =
      (.badRequest "Some dates are already booked",
        (handleStripeWebhook stateS0 stripeEv1).2) :=
  no_double_booking stateS0 stripeEv1 stripeEv2 paypalEvB2 paymentP1 paymentP2
    paymentP4 bookingB1 bookingB2 "o2" 10 12 11 13
    rfl rfl (by decide) (by decide) (by decide)
    (by decide) (by decide) (by decide) (by decide) (by decide) (by decide)
    rfl rfl (by decide) (by decide) (by decide) (by decide)
    (fun paid h => by
      simp only [paypalEvB2] at h
      cases h
      decide)
    (fun code h => by
      simp only [paypalEvB2] at h
      cases h
      decide)
    (by decide) (by decide) (by decide) (by decide) (by decide)
    (fun d hd => rfl)


/-- Status of the booking row with the given id, as stored. -/
def bookingStatusIn (st : DBState) (bookingId : Nat) : Option BookingStatus :=
  (findBookingById st bookingId).map (fun b => b.status)

/-- Status of the payment row with the given id, as stored. -/
def paymentStatusIn (st : DBState) (paymentId : Nat) : Option PaymentStatus :=
  (st.payments.find? (fun p => p.id == paymentId)).map (fun p => p.status)

theorem handleStripeWebhook_cases (st : DBState) (ev : StripeEvent) :
    (handleStripeWebhook st ev).2 = st ∨
    ∃ p b, findPaymentByStripeId st ev.sessionId = some p ∧
      findBookingById st p.bookingId = some b ∧
      p.status ≠ PaymentStatus.SUCCEEDED ∧
      (handleStripeWebhook st ev).2 =
        { st with
          calendar := upsertCalendarAll st.calendar b.listingId
            (expandDatesUtcMidnight (utcMidnight b.startDate)
              ((utcMidnight b.endDate - utcMidnight b.startDate).fdiv MS_PER_DAY))
          bookings := setBookingConfirmed st.bookings b.id
          payments := setPaymentSucceeded st.payments p.id } := by
  simp only [handleStripeWebhook]
  split
  · exact Or.inl rfl
  · split
    · exact Or.inl rfl
    next p hp =>
      split
      · exact Or.inl rfl
      next b hb =>
        split
        next hps => exact Or.inl rfl
        next hps =>
          split
          next hconf => exact Or.inl rfl
          next hconf => exact Or.inr ⟨p, b, hp, hb, hps, rfl⟩

theorem handlePaypalWebhook_cases (st : DBState) (ev : PaypalEvent) :
    (handlePaypalWebhook st ev).2 = st ∨
    ∃ p b oid, ev.relatedOrderId = some oid ∧
      findPaymentByPaypalOrder st oid = some p ∧
      findBookingById st p.bookingId = some b ∧
      p.status ≠ PaymentStatus.SUCCEEDED ∧
      (handlePaypalWebhook st ev).2 =
        { st with
          calendar := upsertCalendarAll st.calendar b.listingId
            (expandDatesUtcMidnight (utcMidnight b.startDate)
              ((utcMidnight b.endDate - utcMidnight b.startDate).fdiv MS_PER_DAY))
          bookings := setBookingConfirmed st.bookings b.id
          payments := setPaymentSucceededPaypal st.payments p.id ev.captureId } := by
  simp only [handlePaypalWebhook]
  split
  · exact Or.inl rfl
  · split
    · exact Or.inl rfl
    next oid ho =>
      split
      · exact Or.inl rfl
      next p hq =>
        split
        · exact Or.inl rfl
        next b hb =>
          split
          next hps => exact Or.inl rfl
          next hps =>
            split
            next hamt => exact Or.inl rfl
            next hamt =>
              split
              next hcur => exact Or.inl rfl
              next hcur =>
                split
                next hconf => exact Or.inl rfl
                next hconf => exact Or.inr ⟨p, b, oid, ho, hq, hb, hps, rfl⟩

theorem findPaymentById_condMap (ps : List Payment) (pid0 pid : Nat)
    (g : Payment → Payment) (hgid : ∀ x, (g x).id = x.id) :
    (ps.map (fun x => if x.id == pid0 then g x else x)).find? (fun q => q.id == pid) =
      (ps.find? (fun q => q.id == pid)).map
        (fun x => if x.id == pid0 then g x else x) :=
  find?_map_pred_preserving _ _
    (fun x => by by_cases hx : (x.id == pid0) = true <;> simp [hx, hgid]) ps

theorem findBookingById_id {st : DBState} {bid : Nat} {b : Booking}
    (h : findBookingById st bid = some b) : b.id = bid := by
  have h2 : st.bookings.find? (fun x => x.id == bid) = some b := h
  have h3 := List.find?_some h2
  simpa using h3

theorem condMap_statuses (st : DBState) (p : Payment) (b : Booking)
    (cal : List CalendarItem) (g : Payment → Payment)
    (hgid : ∀ x, (g x).id = x.id)
    (hgs : ∀ x, (g x).status = PaymentStatus.SUCCEEDED)
    (hnd : (st.payments.map (fun q => q.id)).Nodup)
    (hmem : p ∈ st.payments)
    (hb : findBookingById st p.bookingId = some b) :
    paymentStatusIn
      { st with
        calendar := cal
        bookings := setBookingConfirmed st.bookings b.id
        payments := st.payments.map (fun x => if x.id == p.id then g x else x) }
      p.id = some PaymentStatus.SUCCEEDED ∧
    bookingStatusIn
      { st with
        calendar := cal
        bookings := setBookingConfirmed st.bookings b.id
        payments := st.payments.map (fun x => if x.id == p.id then g x else x) }
      b.id = some BookingStatus.CONFIRMED ∧
    (∀ bid, bid ≠ b.id →
      bookingStatusIn
        { st with
          calendar := cal
          bookings := setBookingConfirmed st.bookings b.id
          payments := st.payments.map (fun x => if x.id == p.id then g x else x) }
        bid = bookingStatusIn st bid) ∧
    (∀ pid, pid ≠ p.id →
      paymentStatusIn
        { st with
          calendar := cal
          bookings := setBookingConfirmed st.bookings b.id
          payments := st.payments.map (fun x => if x.id == p.id then g x else x) }
        pid = paymentStatusIn st pid) := by
  refine ⟨?_, ?_, ?_, ?_⟩
  · unfold paymentStatusIn
    show ((st.payments.map (fun x => if x.id == p.id then g x else x)).find?
      (fun q => q.id == p.id)).map (fun q => q.status) = some PaymentStatus.SUCCEEDED
    rw [findPaymentById_condMap _ _ _ g hgid, find?_id_of_mem_nodup hnd hmem]
    simp [hgs]
  · unfold bookingStatusIn findBookingById
    show ((setBookingConfirmed st.bookings b.id).find? (fun x => x.id == b.id)).map
      (fun x => x.status) = some BookingStatus.CONFIRMED
    rw [findBooking_setConfirmed]
    have hbid : b.id = p.bookingId := findBookingById_id hb
    have hfind : st.bookings.find? (fun x => x.id == b.id) = some b := by
      rw [hbid]; exact hb
    rw [hfind]
    simp
  · intro bid hne
    unfold bookingStatusIn findBookingById
    show ((setBookingConfirmed st.bookings b.id).find? (fun x => x.id == bid)).map
        (fun x => x.status) =
      (st.bookings.find? (fun x => x.id == bid)).map (fun x => x.status)
    rw [findBooking_setConfirmed]
    cases hf : st.bookings.find? (fun x => x.id == bid) with
    | none => rfl
    | some x =>
      have hxid : x.id = bid := by simpa using List.find?_some hf
      simp [hxid, hne]
  · intro pid hne
    unfold paymentStatusIn
    show ((st.payments.map (fun x => if x.id == p.id then g x else x)).find?
        (fun q => q.id == pid)).map (fun q => q.status) =
      (st.payments.find? (fun q => q.id == pid)).map (fun q => q.status)
    rw [findPaymentById_condMap _ _ _ g hgid]
    cases hf : st.payments.find? (fun q => q.id == pid) with
    | none => rfl
    | some x =>
      have hxid : x.id = pid := by simpa using List.find?_some hf
      simp [hxid, hne]


/-- C9: the confirmation path sets Booking.status to CONFIRMED and
Payment.status to SUCCEEDED only together, inside the one transaction.
For every store with distinct payment ids and every verified event, each
webhook handler either leaves the store exactly as it was, or there are a
payment and its owning booking, the payment not yet SUCCEEDED, such that
afterwards that payment is SUCCEEDED and that booking is CONFIRMED, while
every other booking status and payment status is unchanged: neither
status is ever updated without the other via this path. -/
theorem statuses_change_together (st : DBState) (sev : StripeEvent)
    (pev : PaypalEvent) (hnd : (st.payments.map (fun p => p.id)).Nodup) :
    ((handleStripeWebhook st sev).2 = st ∨
      ∃ (p : Payment) (b : Booking),
        p.bookingId = b.id ∧ p.status ≠ PaymentStatus.SUCCEEDED ∧
        paymentStatusIn (handleStripeWebhook st sev).2 p.id =
          some PaymentStatus.SUCCEEDED ∧
        bookingStatusIn (handleStripeWebhook st sev).2 b.id =
          some BookingStatus.CONFIRMED ∧
        (∀ bid, bid ≠ b.id →
          bookingStatusIn (handleStripeWebhook st sev).2 bid =
            bookingStatusIn st bid) ∧
        (∀ pid, pid ≠ p.id →
          paymentStatusIn (handleStripeWebhook st sev).2 pid =
            paymentStatusIn st pid)) ∧
    ((handlePaypalWebhook st pev).2 = st ∨
      ∃ (p : Payment) (b : Booking),
        p.bookingId = b.id ∧ p.status ≠ PaymentStatus.SUCCEEDED ∧
        paymentStatusIn (handlePaypalWebhook st pev).2 p.id =
          some PaymentStatus.SUCCEEDED ∧
        bookingStatusIn (handlePaypalWebhook st pev).2 b.id =
          some BookingStatus.CONFIRMED ∧
        (∀ bid, bid ≠ b.id →
          bookingStatusIn (handlePaypalWebhook st pev).2 bid =
            bookingStatusIn st bid) ∧
        (∀ pid, pid ≠ p.id →
          paymentStatusIn (handlePaypalWebhook st pev).2 pid =
            paymentStatusIn st pid)) := by
  constructor
  · rcases handleStripeWebhook_cases st sev with h | ⟨p, b, hp, hb, hps, heq⟩
    · exact Or.inl h
    · right
      have hmem : p ∈ st.payments := List.mem_of_find?_eq_some
        (show st.payments.find? (fun q => q.stripePaymentId == some sev.sessionId) =
          some p from hp)
      have hc := condMap_statuses st p b
        (upsertCalendarAll st.calendar b.listingId
          (expandDatesUtcMidnight (utcMidnight b.startDate)
            ((utcMidnight b.endDate - utcMidnight b.startDate).fdiv MS_PER_DAY)))
        (fun x => { x with status := PaymentStatus.SUCCEEDED })
        (fun x => rfl) (fun x => rfl) hnd hmem hb
      rw [heq]
      exact ⟨p, b, (findBookingById_id hb).symm, hps,
        hc.1, hc.2.1, hc.2.2.1, hc.2.2.2⟩
  · rcases handlePaypalWebhook_cases st pev with h | ⟨p, b, oid, ho, hq, hb, hps, heq⟩
    · exact Or.inl h
    · right
      have hmem : p ∈ st.payments := List.mem_of_find?_eq_some
        (show st.payments.find? (fun q => q.paymentMethod == PaymentMethod.PAYPAL &&
          q.paypalOrderId == some oid) = some p from hq)
      have hc := condMap_statuses st p b
        (upsertCalendarAll st.calendar b.listingId
          (expandDatesUtcMidnight (utcMidnight b.startDate)
            ((utcMidnight b.endDate - utcMidnight b.startDate).fdiv MS_PER_DAY)))
        (fun x => { x with
          status := PaymentStatus.SUCCEEDED
          paypalCaptureId := pev.captureId })
        (fun x => rfl) (fun x => rfl) hnd hmem hb
      rw [heq]
      exact ⟨p, b, (findBookingById_id hb).symm, hps,
        hc.1, hc.2.1, hc.2.2.1, hc.2.2.2⟩


/-- C9 witness: the statuses-together theorem instantiated at the
two-booking fixture store, whose payment ids are distinct. -/
theorem statuses_change_together_witness :
    ((handleStripeWebhook stateS0 stripeEv1).2 = stateS0 ∨
      ∃ (p : Payment) (b : Booking),
        p.bookingId = b.id ∧ p.status ≠ PaymentStatus.SUCCEEDED ∧
        paymentStatusIn (handleStripeWebhook stateS0 stripeEv1).2 p.id =
          some PaymentStatus.SUCCEEDED ∧
        bookingStatusIn (handleStripeWebhook stateS0 stripeEv1).2 b.id =
          some BookingStatus.CONFIRMED ∧
        (∀ bid, bid ≠ b.id →
          bookingStatusIn (handleStripeWebhook stateS0 stripeEv1).2 bid =
            bookingStatusIn stateS0 bid) ∧
        (∀ pid, pid ≠ p.id →
          paymentStatusIn (handleStripeWebhook stateS0 stripeEv1).2 pid =
            paymentStatusIn stateS0 pid)) ∧
    ((handlePaypalWebhook stateS0 paypalEvOk).2 = stateS0 ∨
      ∃ (p : Payment) (b : Booking),
        p.bookingId = b.id ∧ p.status ≠ PaymentStatus.SUCCEEDED ∧
        paymentStatusIn (handlePaypalWebhook stateS0 paypalEvOk).2 p.id =
          some PaymentStatus.SUCCEEDED ∧
        bookingStatusIn (handlePaypalWebhook stateS0 paypalEvOk).2 b.id =
          some BookingStatus.CONFIRMED ∧
        (∀ bid, bid ≠ b.id →
          bookingStatusIn (handlePaypalWebhook stateS0 paypalEvOk).2 bid =
            bookingStatusIn stateS0 bid) ∧
        (∀ pid, pid ≠ p.id →
          paymentStatusIn (handlePaypalWebhook stateS0 paypalEvOk).2 pid =
            paymentStatusIn stateS0 pid)) :=
  statuses_change_together stateS0 stripeEv1 paypalEvOk (by decide)


end Airbnb
